import Mathlib

/-!
Verification development for the djangosaml2 SP views (`djangosaml2/views.py`).

The file embeds the control flow of the view functions as Lean functions over
explicit state.  External collaborators (Django's auth machinery, the pysaml2
client, the session store) are modelled as explicit inputs or as small concrete
models; every model definition carries a doc comment naming what it stands for.
-/

namespace Djangosaml2

/-- Association-list model of a Python string-keyed dict (the Django session
dict and the outstanding-queries store are both plain dicts). -/
def Dict := List (String × String)
deriving DecidableEq, Repr

/-- Dict lookup: `d.get(k)` / `d[k]` guarded by `KeyError`. -/
def dictGet (d : Dict) (k : String) : Option String :=
  match d with
  | [] => none
  | (k', v) :: rest => if k' = k then some v else dictGet rest k

/-- Dict deletion: `del d[k]` (removes every pair stored under `k`). -/
def dictDelete (d : Dict) (k : String) : Dict :=
  match d with
  | [] => []
  | (k', v) :: rest => if k' = k then dictDelete rest k else (k', v) :: dictDelete rest k

/-- Dict update `d[k] = v`; observationally equal to the Python dict update
under `dictGet`. -/
def dictSet (d : Dict) (k : String) (v : String) : Dict :=
  (k, v) :: dictDelete d k

theorem dictGet_dictSet_self (d : Dict) (k v : String) :
    dictGet (dictSet d k v) k = some v := by
  simp [dictGet, dictSet]

theorem dictGet_dictDelete_self (d : Dict) (k : String) :
    dictGet (dictDelete d k) k = none := by
  induction d with
  | nil => rfl
  | cons p rest ih =>
    obtain ⟨k', v⟩ := p
    by_cases h : k' = k
    · simpa [dictDelete, h] using ih
    · simpa [dictDelete, dictGet, h] using ih

/-- Model of `saml2.saml.NameID` restricted to the attributes that
`saml2.ident.code`/`decode` serialize, in their `ATTR` order.  A `none` field
is a Python `None`. -/
structure NameID where
  nameQualifier : Option String
  spNameQualifier : Option String
  format : Option String
  spProvidedId : Option String
  text : Option String
deriving DecidableEq, Repr

/-- The `NameID()` all the fields of which are unset. -/
def emptyNameID : NameID := ⟨none, none, none, none, none⟩

/-- A name id is well formed when no set field is the empty string (Python
truthiness makes `code` drop empty-string fields exactly like `None` ones). -/
def NameID.wf (n : NameID) : Prop :=
  n.nameQualifier ≠ some "" ∧ n.spNameQualifier ≠ some "" ∧
  n.format ≠ some "" ∧ n.spProvidedId ≠ some "" ∧ n.text ≠ some ""

/-- Modelled from the spec: `urllib.quote` as used by `saml2.ident.code`
(absent third-party code).  Only the characters that matter for parsing the
coded form back (`%`, `,`, `=`) are modelled as percent-escaped. -/
def escChar (c : Char) : List Char :=
  if c = '%' then ['%', '2', '5']
  else if c = ',' then ['%', '2', 'C']
  else if c = '=' then ['%', '3', 'D']
  else [c]

/-- Percent-escaping of a character list, character by character. -/
def escape : List Char → List Char
  | [] => []
  | c :: rest => escChar c ++ escape rest

/-- Decoding of one two-character percent escape. -/
def hexDec (a b : Char) : Char :=
  if a = '2' ∧ b = '5' then '%'
  else if a = '2' ∧ b = 'C' then ','
  else if a = '3' ∧ b = 'D' then '='
  else '?'

/-- Modelled from the spec: `urllib.unquote` as used by `saml2.ident.decode`,
inverse of `escape` on its image. -/
def unescape : List Char → List Char
  | [] => []
  | c :: rest =>
    if c = '%' then
      match rest with
      | a :: b :: r => hexDec a b :: unescape r
      | [a] => ['%', a]
      | [] => ['%']
    else c :: unescape rest

theorem unescape_cons_ne (c : Char) (rest : List Char) (h : ¬ c = '%') :
    unescape (c :: rest) = c :: unescape rest := by
  rw [unescape.eq_def]
  simp [h]

theorem unescape_escape (l : List Char) : unescape (escape l) = l := by
  induction l with
  | nil => rfl
  | cons c rest ih =>
    by_cases h1 : c = '%'
    · subst h1; simp [escape, escChar, unescape, hexDec, ih]
    · by_cases h2 : c = ','
      · subst h2; simp [escape, escChar, unescape, hexDec, ih]
      · by_cases h3 : c = '='
        · subst h3; simp [escape, escChar, unescape, hexDec, ih]
        · simp only [escape, escChar, h1, h2, h3, if_false, List.singleton_append]
          rw [unescape_cons_ne c _ h1, ih]

theorem comma_not_mem_escChar (c : Char) : ',' ∉ escChar c := by
  by_cases h1 : c = '%'
  · subst h1; decide
  · by_cases h2 : c = ','
    · subst h2; decide
    · by_cases h3 : c = '='
      · subst h3; decide
      · simp only [escChar, h1, h2, h3, if_false, List.mem_singleton]
        exact fun hh => h2 hh.symm

theorem eqchar_not_mem_escChar (c : Char) : '=' ∉ escChar c := by
  by_cases h1 : c = '%'
  · subst h1; decide
  · by_cases h2 : c = ','
    · subst h2; decide
    · by_cases h3 : c = '='
      · subst h3; decide
      · simp only [escChar, h1, h2, h3, if_false, List.mem_singleton]
        exact fun hh => h3 hh.symm

theorem comma_not_mem_escape (l : List Char) : ',' ∉ escape l := by
  induction l with
  | nil => simp [escape]
  | cons c rest ih =>
    simp only [escape, List.mem_append]
    rintro (h | h)
    · exact comma_not_mem_escChar c h
    · exact ih h

/-- Python `",".join(parts)`. -/
def joinComma : List (List Char) → List Char
  | [] => []
  | [p] => p
  | p :: q :: ps => p ++ ',' :: joinComma (q :: ps)

/-- Python `txt.split(",")`. -/
def splitComma : List Char → List (List Char)
  | [] => [[]]
  | c :: rest =>
    if c = ',' then [] :: splitComma rest
    else
      match splitComma rest with
      | p :: ps => (c :: p) :: ps
      | [] => [[c]]

theorem splitComma_no_comma (p : List Char) (h : ',' ∉ p) : splitComma p = [p] := by
  induction p with
  | nil => rfl
  | cons c rest ih =>
    rw [List.mem_cons] at h
    push_neg at h
    obtain ⟨h1, h2⟩ := h
    have hc : ¬ c = ',' := fun hh => h1 hh.symm
    simp [splitComma, hc, ih h2]

theorem splitComma_append_comma (p l : List Char) (h : ',' ∉ p) :
    splitComma (p ++ ',' :: l) = p :: splitComma l := by
  induction p with
  | nil => simp [splitComma]
  | cons c rest ih =>
    rw [List.mem_cons] at h
    push_neg at h
    obtain ⟨h1, h2⟩ := h
    have hc : ¬ c = ',' := fun hh => h1 hh.symm
    simp [splitComma, hc, ih h2]

theorem splitComma_joinComma (ps : List (List Char)) (hne : ps ≠ [])
    (h : ∀ p ∈ ps, ',' ∉ p) : splitComma (joinComma ps) = ps := by
  induction ps with
  | nil => exact absurd rfl hne
  | cons p rest ih =>
    cases rest with
    | nil =>
      simpa [joinComma] using splitComma_no_comma p (h p (List.mem_cons_self p []))
    | cons q qs =>
      rw [joinComma, splitComma_append_comma p _ (h p (List.mem_cons_self p _)),
        ih (by simp) (fun x hx => h x (List.mem_cons_of_mem p hx))]

/-- Split a character list at its first `=` (the `part.split("=")` of
`saml2.ident.decode`; coded parts contain exactly one `=`). -/
def splitFirstEq : List Char → Option (List Char × List Char)
  | [] => none
  | c :: rest =>
    if c = '=' then some ([], rest)
    else
      match splitFirstEq rest with
      | some pr => some (c :: pr.1, pr.2)
      | none => none

/-- Modelled from the spec: one step of `saml2.ident.decode` (absent
third-party code) — apply a single `i=value` part to the accumulating
`NameID`, skipping parts with no `=`. -/
def applyPart (nid : NameID) (part : List Char) : NameID :=
  match splitFirstEq part with
  | none => nid
  | some pr =>
    let v := String.mk (unescape pr.2)
    if pr.1 = ['0'] then { nid with nameQualifier := some v }
    else if pr.1 = ['1'] then { nid with spNameQualifier := some v }
    else if pr.1 = ['2'] then { nid with format := some v }
    else if pr.1 = ['3'] then { nid with spProvidedId := some v }
    else if pr.1 = ['4'] then { nid with text := some v }
    else nid

/-- One coded part, `"%d=%s" % (i, quote(val))`, emitted only when the value
is truthy (neither `None` nor the empty string). -/
def pickField (idx : Char) (o : Option String) : List (List Char) :=
  match o with
  | none => []
  | some v => if v = "" then [] else [idx :: '=' :: escape v.data]

/-- The coded parts of a name id, in the `ATTR` order of `saml2.ident`. -/
def codedParts (n : NameID) : List (List Char) :=
  pickField '0' n.nameQualifier ++ pickField '1' n.spNameQualifier ++
  pickField '2' n.format ++ pickField '3' n.spProvidedId ++ pickField '4' n.text

/-- Modelled from the spec: `saml2.ident.code` (absent third-party code) —
serialize a name id as comma-joined `i=quote(val)` parts. -/
def code (n : NameID) : String := String.mk (joinComma (codedParts n))

/-- Modelled from the spec: `saml2.ident.decode` (absent third-party code) —
split on commas and apply each `i=value` part to a fresh `NameID`. -/
def decode (s : String) : NameID :=
  (splitComma s.data).foldl applyPart emptyNameID

theorem applyPart_field0 (a : NameID) (l : List Char) :
    applyPart a ('0' :: '=' :: l) = { a with nameQualifier := some (String.mk (unescape l)) } := rfl

theorem applyPart_field1 (a : NameID) (l : List Char) :
    applyPart a ('1' :: '=' :: l) = { a with spNameQualifier := some (String.mk (unescape l)) } := rfl

theorem applyPart_field2 (a : NameID) (l : List Char) :
    applyPart a ('2' :: '=' :: l) = { a with format := some (String.mk (unescape l)) } := rfl

theorem applyPart_field3 (a : NameID) (l : List Char) :
    applyPart a ('3' :: '=' :: l) = { a with spProvidedId := some (String.mk (unescape l)) } := rfl

theorem applyPart_field4 (a : NameID) (l : List Char) :
    applyPart a ('4' :: '=' :: l) = { a with text := some (String.mk (unescape l)) } := rfl

/-- Keep the first option when set, else the second. -/
def fieldOr : Option String → Option String → Option String
  | some v, _ => some v
  | none, b => b

theorem fieldOr_none (o : Option String) : fieldOr o none = o := by
  cases o <;> rfl

theorem fold_pick0 (a : NameID) (o : Option String) (h : o ≠ some "") :
    List.foldl applyPart a (pickField '0' o) =
      { a with nameQualifier := fieldOr o a.nameQualifier } := by
  cases o with
  | none => rfl
  | some v =>
    have hv : ¬ v = "" := by simpa using h
    simp [pickField, hv, fieldOr, applyPart_field0, unescape_escape]

theorem fold_pick1 (a : NameID) (o : Option String) (h : o ≠ some "") :
    List.foldl applyPart a (pickField '1' o) =
      { a with spNameQualifier := fieldOr o a.spNameQualifier } := by
  cases o with
  | none => rfl
  | some v =>
    have hv : ¬ v = "" := by simpa using h
    simp [pickField, hv, fieldOr, applyPart_field1, unescape_escape]

theorem fold_pick2 (a : NameID) (o : Option String) (h : o ≠ some "") :
    List.foldl applyPart a (pickField '2' o) =
      { a with format := fieldOr o a.format } := by
  cases o with
  | none => rfl
  | some v =>
    have hv : ¬ v = "" := by simpa using h
    simp [pickField, hv, fieldOr, applyPart_field2, unescape_escape]

theorem fold_pick3 (a : NameID) (o : Option String) (h : o ≠ some "") :
    List.foldl applyPart a (pickField '3' o) =
      { a with spProvidedId := fieldOr o a.spProvidedId } := by
  cases o with
  | none => rfl
  | some v =>
    have hv : ¬ v = "" := by simpa using h
    simp [pickField, hv, fieldOr, applyPart_field3, unescape_escape]

theorem fold_pick4 (a : NameID) (o : Option String) (h : o ≠ some "") :
    List.foldl applyPart a (pickField '4' o) =
      { a with text := fieldOr o a.text } := by
  cases o with
  | none => rfl
  | some v =>
    have hv : ¬ v = "" := by simpa using h
    simp [pickField, hv, fieldOr, applyPart_field4, unescape_escape]

theorem mem_pickField (d : Char) (o : Option String) (p : List Char)
    (hp : p ∈ pickField d o) : ∃ v : String, p = d :: '=' :: escape v.data := by
  cases o with
  | none => simp [pickField] at hp
  | some v =>
    by_cases hv : v = ""
    · simp [pickField, hv] at hp
    · simp [pickField, hv] at hp
      exact ⟨v, hp⟩

theorem codedParts_no_comma (n : NameID) : ∀ p ∈ codedParts n, ',' ∉ p := by
  intro p hp
  simp only [codedParts, List.mem_append] at hp
  have hpart : ∃ d v, (d = '0' ∨ d = '1' ∨ d = '2' ∨ d = '3' ∨ d = '4') ∧
      p = d :: '=' :: escape (String.data v) := by
    rcases hp with ((((h | h) | h) | h) | h)
    · obtain ⟨v, hv⟩ := mem_pickField _ _ _ h; exact ⟨'0', v, by simp, hv⟩
    · obtain ⟨v, hv⟩ := mem_pickField _ _ _ h; exact ⟨'1', v, by simp, hv⟩
    · obtain ⟨v, hv⟩ := mem_pickField _ _ _ h; exact ⟨'2', v, by simp, hv⟩
    · obtain ⟨v, hv⟩ := mem_pickField _ _ _ h; exact ⟨'3', v, by simp, hv⟩
    · obtain ⟨v, hv⟩ := mem_pickField _ _ _ h; exact ⟨'4', v, by simp, hv⟩
  obtain ⟨d, v, hd, rfl⟩ := hpart
  intro hmem
  rw [List.mem_cons, List.mem_cons] at hmem
  rcases hmem with h | h | h
  · rcases hd with rfl | rfl | rfl | rfl | rfl <;> exact absurd h (by decide)
  · exact absurd h (by decide)
  · exact comma_not_mem_escape _ h

theorem foldl_codedParts (n : NameID) (hwf : n.wf) :
    List.foldl applyPart emptyNameID (codedParts n) = n := by
  obtain ⟨o0, o1, o2, o3, o4⟩ := n
  obtain ⟨h0, h1, h2, h3, h4⟩ := hwf
  simp only [codedParts, List.foldl_append]
  rw [fold_pick0 _ _ h0, fold_pick1 _ _ h1, fold_pick2 _ _ h2,
    fold_pick3 _ _ h3, fold_pick4 _ _ h4]
  simp [emptyNameID, fieldOr_none]

theorem decode_code (n : NameID) (hwf : n.wf) : decode (code n) = n := by
  have hfold := foldl_codedParts n hwf
  by_cases hnil : codedParts n = []
  · rw [hnil] at hfold
    have : decode (code n) = emptyNameID := by
      rw [code, hnil]
      rfl
    rw [this]
    exact hfold
  · rw [code, decode]
    have hdata : (String.mk (joinComma (codedParts n))).data = joinComma (codedParts n) := rfl
    rw [hdata, splitComma_joinComma _ hnil (codedParts_no_comma n), hfold]

/-- Embedding of `_set_subject_id` (views.py lines 71-72): store the coded
name id in the session under the `_saml2_subject_id` key. -/
def setSubjectId (session : Dict) (nameId : NameID) : Dict :=
  dictSet session "_saml2_subject_id" (code nameId)

/-- Embedding of `_get_subject_id` (views.py lines 75-79): decode the stored
value; a missing key (`KeyError`) yields `None`. -/
def getSubjectId (session : Dict) : Option NameID :=
  (dictGet session "_saml2_subject_id").map decode

/-- The SAML bindings the views distinguish (`BINDING_HTTP_REDIRECT`,
`BINDING_HTTP_POST`, and the SOAP backchannel). -/
inductive Binding
  | httpRedirect
  | httpPost
  | soap
deriving DecidableEq, Repr

/-- The `UnsupportedBinding` failure raised by the login view. -/
inductive BindingErr
  | unsupportedBinding
deriving DecidableEq, Repr

/-- Embedding of the binding-selection block of `login` (views.py lines
164-185): try HTTP-POST when requests are signed, else HTTP-Redirect; if the
first choice is unsupported, switch to the other of the two; if that is also
unsupported, raise `UnsupportedBinding`. -/
def chooseBinding (signRequests : Bool) (supported : List Binding) :
    Except BindingErr Binding :=
  let binding := if signRequests then Binding.httpPost else Binding.httpRedirect
  if binding ∈ supported then Except.ok binding
  else
    let binding2 := if binding = Binding.httpPost then Binding.httpRedirect
      else Binding.httpPost
    if binding2 ∈ supported then Except.ok binding2
    else Except.error BindingErr.unsupportedBinding

/-- The Django settings the login view reads. -/
structure LoginSettings where
  loginRedirectUrl : String
  ignoreAuthenticatedUsersOnLogin : Bool

/-- The SP configuration facts `login` reads: flags, the available IdPs
(`available_idps`, an entity-id to display-name mapping), and each IdP's
advertised SSO bindings (`get_idp_sso_supported_bindings`). -/
structure SpConfig where
  forceAuthn : Bool
  allowCreate : Bool
  signRequests : Bool
  idps : List (String × String)
  supportedSsoBindings : String → List Binding

/-- The request data `login` reads: the `next` and `idp` GET parameters and
whether the requesting user is already authenticated. -/
structure LoginRequestData where
  nextParam : Option String
  idpParam : Option String
  userIsAuthenticated : Bool

/-- The distinguishable results of the `login` view. -/
inductive LoginOutcome
  | redirectCameFrom (url : String)
  | alreadyLoggedInError (cameFrom : String)
  | wayf (availableIdps : List (String × String)) (cameFrom : String)
  | idpConfigurationMissing
  | unsupportedBindingFailure
  | authnRedirect (binding : Binding) (idp : String)
deriving Repr

/-- Embedding of the `came_from` computation of `login` (views.py lines
104-108); `validateReferralUrl` stands for `utils.validate_referral_url`. -/
def loginCameFrom (settings : LoginSettings) (validateReferralUrl : String → String)
    (req : LoginRequestData) : String :=
  let c := req.nextParam.getD settings.loginRedirectUrl
  let c := if c = "" then settings.loginRedirectUrl else c
  validateReferralUrl c

/-- Embedding of the `login` view (views.py lines 82-257).  The pysaml2
client calls that build the AuthnRequest are abstracted as succeeding with the
fresh `sessionId`; on success the view records `(session_id, came_from)` in
the outstanding-queries cache held in `samlSession` (lines 252-255). -/
def loginView (settings : LoginSettings) (validateReferralUrl : String → String)
    (conf : SpConfig) (sessionId : String) (req : LoginRequestData)
    (samlSession : Dict) : LoginOutcome × Dict :=
  let cameFrom := loginCameFrom settings validateReferralUrl req
  if req.userIsAuthenticated then
    if settings.ignoreAuthenticatedUsersOnLogin then
      (LoginOutcome.redirectCameFrom cameFrom, samlSession)
    else (LoginOutcome.alreadyLoggedInError cameFrom, samlSession)
  else
    if req.idpParam = none ∧ 1 < conf.idps.length then
      (LoginOutcome.wayf conf.idps cameFrom, samlSession)
    else
      match conf.idps with
      | [] => (LoginOutcome.idpConfigurationMissing, samlSession)
      | (firstIdp, _) :: _ =>
        let selectedIdp := req.idpParam.getD firstIdp
        match chooseBinding conf.signRequests (conf.supportedSsoBindings selectedIdp) with
        | Except.error _ => (LoginOutcome.unsupportedBindingFailure, samlSession)
        | Except.ok binding =>
          (LoginOutcome.authnRedirect binding selectedIdp,
            dictSet samlSession sessionId cameFrom)

/-- The top-level SAML status of a response, as distinguished by the pysaml2
exceptions the ACS view catches. -/
inductive SamlStatus
  | success
  | authnFailed
  | requestDenied
  | noAuthnContext
  | otherError
deriving DecidableEq, Repr

/-- Abstract shape of a raw `SAMLResponse` payload: the validation-relevant
facts of the XML document (signature, time window, status, `InResponseTo`,
subject name id), plus whether pysaml2 would return `None` for it. -/
structure RawResponse where
  signatureOk : Bool
  tooEarly : Bool
  lifetimeExceeded : Bool
  missingKey : Bool
  inResponseTo : String
  status : SamlStatus
  nameId : NameID
  parsesToNone : Bool
deriving DecidableEq, Repr

/-- The pysaml2 exceptions caught by `AssertionConsumerServiceView.post`
(views.py lines 303-326). -/
inductive AcsError
  | statusError
  | toEarlyError
  | lifetimeExceedError
  | signatureError
  | authnFailedError
  | requestDeniedError
  | noAuthnContextError
  | missingKeyError
  | unsolicitedResponse
deriving DecidableEq, Repr

/-- A successfully parsed authn response: `session_id()` is its
`InResponseTo`, and the relay target recorded for that exchange. -/
structure ParsedResponse where
  sessionId : String
  cameFrom : Option String
  nameId : NameID
deriving DecidableEq, Repr

/-- Modelled from the spec: pysaml2's `parse_authn_request_response` (absent
third-party code), following the validation pipeline of spec section 4.4 —
signature, time window, correlation against the outstanding queries
(`UnsolicitedResponse` when `InResponseTo` matches no outstanding request id),
then status; a `None` result models pysaml2 returning `None`. -/
def parseAuthnRequestResponse (raw : RawResponse) (outstanding : Dict) :
    Except AcsError (Option ParsedResponse) :=
  if raw.signatureOk = false then Except.error AcsError.signatureError
  else if raw.tooEarly then Except.error AcsError.toEarlyError
  else if raw.lifetimeExceeded then Except.error AcsError.lifetimeExceedError
  else if raw.missingKey then Except.error AcsError.missingKeyError
  else if (dictGet outstanding raw.inResponseTo).isNone then
    Except.error AcsError.unsolicitedResponse
  else
    match raw.status with
    | SamlStatus.authnFailed => Except.error AcsError.authnFailedError
    | SamlStatus.requestDenied => Except.error AcsError.requestDeniedError
    | SamlStatus.noAuthnContext => Except.error AcsError.noAuthnContextError
    | SamlStatus.otherError => Except.error AcsError.statusError
    | SamlStatus.success =>
      if raw.parsesToNone then Except.ok none
      else Except.ok (some ⟨raw.inResponseTo, dictGet outstanding raw.inResponseTo, raw.nameId⟩)

/-- The session-held state the ACS view touches: the outstanding-queries
cache and the Django session dict (subject id storage). -/
structure AcsState where
  oq : Dict
  session : Dict
deriving DecidableEq, Repr

/-- The distinguishable results of `AssertionConsumerServiceView.post`. -/
inductive AcsOutcome
  | suspiciousOperation
  | acsFailure (e : AcsError)
  | acsFailureUnknown
  | permissionDeniedNoUser
  | redirectWithToken (url : String)
deriving DecidableEq, Repr

/-- The POST data of an ACS request: the (already abstracted) `SAMLResponse`
parameter and the `RelayState` parameter. -/
structure AcsRequestData where
  samlResponse : Option RawResponse
  relayState : Option String

/-- Embedding of `build_relay_state` (views.py lines 390-401) with the default
`customize_relay_state` hook. -/
def buildRelayState (defaultRedirect : String) (relayState : Option String) : String :=
  let rs := relayState.getD "/"
  if rs = "" then defaultRedirect else rs

/-- Embedding of `AssertionConsumerServiceView.post` (views.py lines 276-388)
with the default hooks (`custom_redirect` returns `None`).  `authenticateUser`
stands for Django's `auth.authenticate` over the extracted session info, and
`validateReferralUrl` for `utils.validate_referral_url`.  On success the view
deletes the consumed entry from the outstanding-queries cache (line 333),
stores the subject id, and redirects to the relay state. -/
def acsPost (authenticateUser : ParsedResponse → Option String)
    (validateReferralUrl : String → String) (defaultRedirect : String)
    (req : AcsRequestData) (st : AcsState) : AcsOutcome × AcsState :=
  match req.samlResponse with
  | none => (AcsOutcome.suspiciousOperation, st)
  | some raw =>
    match parseAuthnRequestResponse raw st.oq with
    | Except.error e => (AcsOutcome.acsFailure e, st)
    | Except.ok none => (AcsOutcome.acsFailureUnknown, st)
    | Except.ok (some parsed) =>
      let st1 : AcsState := { st with oq := dictDelete st.oq parsed.sessionId }
      match authenticateUser parsed with
      | none => (AcsOutcome.permissionDeniedNoUser, st1)
      | some _user =>
        let st2 : AcsState := { st1 with session := setSubjectId st1.session parsed.nameId }
        let relay := validateReferralUrl (buildRelayState defaultRedirect req.relayState)
        (AcsOutcome.redirectWithToken relay, st2)

/-- The per-request state the logout views touch: whether the local Django
session is authenticated, a count of local session terminations, and the
session dict. -/
structure ViewState where
  authenticated : Bool
  terminations : Nat
  session : Dict
deriving DecidableEq, Repr

/-- Django's `auth.logout`: the session becomes anonymous; `terminations`
counts terminations of an actually authenticated session. -/
def authLogout (st : ViewState) : ViewState :=
  { st with authenticated := false,
            terminations := st.terminations + (if st.authenticated then 1 else 0) }

/-- Embedding of `_do_local_logout` (views.py lines 520-522): call
`auth.logout` only when the user is authenticated. -/
def doLocalLogout (st : ViewState) : ViewState :=
  if st.authenticated then authLogout st else st

/-- The transport data pysaml2 hands back for one entity (`http_info`). -/
structure HttpInfo where
  method : Option String
  data : Option String
  headers : List (String × String)
  location : String
deriving DecidableEq, Repr

/-- Result of a parsed `LogoutResponse` (only its status matters to
`finish_logout`). -/
structure LogoutRespModel where
  statusOk : Bool
deriving DecidableEq, Repr

/-- What `client.global_logout` returned for one entity: an HTTP
`(binding, http_info)` pair, or the parsed response of a SOAP logout. -/
inductive LogoutInfo
  | httpPair (binding : Binding) (info : HttpInfo)
  | soapDone (response : Option LogoutRespModel)
deriving DecidableEq, Repr

/-- Behavior of the `client.global_logout` call: it either raises
`LogoutError` (SLO not supported) or returns a per-entity result dict. -/
inductive GlobalLogoutBehavior
  | raisesLogoutError
  | returns (result : List (String × LogoutInfo))
deriving DecidableEq, Repr

/-- Embedding of `finish_logout` (views.py lines 587-596): on an OK status,
perform the Django logout (first component `true`); otherwise render the
logout error page. -/
def finishLogout (st : ViewState) (resp : Option LogoutRespModel) : Bool × ViewState :=
  match resp with
  | some r => if r.statusOk then (true, authLogout st) else (false, st)
  | none => (false, st)

/-- The distinguishable results of the `logout` view. -/
inductive LogoutInitOutcome
  | sloUnsupportedRedirect
  | notLoggedInAnywhere
  | continueWithForm (entity : String) (body : String)
  | continueWithRedirect (entity : String) (url : String)
  | unknownBindingError (entity : String)
  | loggedOut
  | logoutErrorPage
deriving DecidableEq, Repr

/-- Embedding of the `logout` view (views.py lines 448-505): local logout
first (line 454), then `client.global_logout`; on `LogoutError` local logout
again and redirect to `LOGOUT_REDIRECT_URL`; on an empty result a bad-request
page; otherwise the first entity's logout continuation is returned (every
branch of the loop body returns on the first iteration). -/
def logoutView (remote : GlobalLogoutBehavior) (st : ViewState) :
    LogoutInitOutcome × ViewState :=
  let st1 := doLocalLogout st
  match remote with
  | GlobalLogoutBehavior.raisesLogoutError =>
    (LogoutInitOutcome.sloUnsupportedRedirect, doLocalLogout st1)
  | GlobalLogoutBehavior.returns result =>
    match result with
    | [] => (LogoutInitOutcome.notLoggedInAnywhere, st1)
    | (entityid, logoutInfo) :: _ =>
      match logoutInfo with
      | LogoutInfo.httpPair binding info =>
        match binding with
        | Binding.httpPost =>
          (LogoutInitOutcome.continueWithForm entityid (info.data.getD ""), st1)
        | Binding.httpRedirect =>
          (LogoutInitOutcome.continueWithRedirect entityid info.location, st1)
        | Binding.soap => (LogoutInitOutcome.unknownBindingError entityid, st1)
      | LogoutInfo.soapDone resp =>
        let pr := finishLogout st1 resp
        ((if pr.1 then LogoutInitOutcome.loggedOut else LogoutInitOutcome.logoutErrorPage),
          pr.2)

/-- The entity to which the returned response continues the logout protocol,
when there is one. -/
def notifiedEntity : LogoutInitOutcome → Option String
  | LogoutInitOutcome.continueWithForm e _ => some e
  | LogoutInitOutcome.continueWithRedirect e _ => some e
  | _ => none

/-- The error that `do_logout_service` can raise out of its body. -/
inductive ViewErr
  | http404
deriving DecidableEq, Repr

/-- The request payload of the logout service endpoints (`request.GET` or
`request.POST`). -/
structure LogoutServiceData where
  samlResponse : Option String
  samlRequest : Option String
  relayState : Option String
deriving DecidableEq, Repr

/-- The distinguishable results of `do_logout_service`. -/
inductive LogoutServiceOutcome
  | finishLoggedOut
  | finishErrorPage
  | unknownSubjectErrorPage
  | idpLogoutResponseBody (body : String)
  | idpLogoutRedirect (url : String)
deriving DecidableEq, Repr

/-- Embedding of `do_logout_service` (views.py lines 525-584).
`parseLogoutRequestResponse` stands for the pysaml2
`parse_logout_request_response` call; `handleLogoutRequest` stands for
`client.handle_logout_request` (it returns the `http_info` of the
LogoutResponse built for the IdP).  A payload with a `SAMLResponse` finishes a
logout we started; a `SAMLRequest` is an IdP-initiated logout: with no locally
known subject id the view logs out locally and renders the 403 error page,
otherwise it builds the response, logs out locally, and hands the response
back; with neither parameter it raises `Http404`. -/
def doLogoutService (parseLogoutRequestResponse : String → Option LogoutRespModel)
    (handleLogoutRequest : String → NameID → Binding → String → HttpInfo)
    (binding : Binding) (data : LogoutServiceData) (st : ViewState) :
    Except ViewErr LogoutServiceOutcome × ViewState :=
  match data.samlResponse with
  | some xml =>
    let pr := finishLogout st (parseLogoutRequestResponse xml)
    (Except.ok (if pr.1 then LogoutServiceOutcome.finishLoggedOut
      else LogoutServiceOutcome.finishErrorPage), pr.2)
  | none =>
    match data.samlRequest with
    | some xml =>
      match getSubjectId st.session with
      | none => (Except.ok LogoutServiceOutcome.unknownSubjectErrorPage, doLocalLogout st)
      | some subjectId =>
        let info := handleLogoutRequest xml subjectId binding (data.relayState.getD "")
        let st1 := doLocalLogout st
        if info.method.getD "GET" = "POST" ∧ info.data.isSome ∧
            ("Content-type", "text/html") ∈ info.headers then
          (Except.ok (LogoutServiceOutcome.idpLogoutResponseBody (info.data.getD "")), st1)
        else (Except.ok (LogoutServiceOutcome.idpLogoutRedirect info.location), st1)
    | none => (Except.error ViewErr.http404, st)

/-- Embedding of `logout_service` (views.py lines 508-509): the GET endpoint
calls `do_logout_service` with the redirect binding; errors propagate. -/
def logoutServiceGet (parseLogoutRequestResponse : String → Option LogoutRespModel)
    (handleLogoutRequest : String → NameID → Binding → String → HttpInfo)
    (data : LogoutServiceData) (st : ViewState) :
    Except ViewErr LogoutServiceOutcome × ViewState :=
  doLogoutService parseLogoutRequestResponse handleLogoutRequest Binding.httpRedirect data st

/-- Embedding of `logout_service_post` (views.py lines 512-517): the POST
endpoint calls `do_logout_service` with the POST binding inside a
`try/except Exception` that logs the error and falls off the end of the
function — an error turns into a `None` return value. -/
def logoutServicePost (parseLogoutRequestResponse : String → Option LogoutRespModel)
    (handleLogoutRequest : String → NameID → Binding → String → HttpInfo)
    (data : LogoutServiceData) (st : ViewState) :
    Option LogoutServiceOutcome × ViewState :=
  match doLogoutService parseLogoutRequestResponse handleLogoutRequest Binding.httpPost data st with
  | (Except.ok r, st') => (some r, st')
  | (Except.error _, st') => (none, st')

/-- C1: every `(session_id, came_from)` pair recorded by `login` in the
outstanding-queries cache is consumed at most once by a successful
`AssertionConsumerServiceView.post`: the first successful processing redirects
and deletes the entry, and a second call with the same raw payload fails with
`UnsolicitedResponse` instead of succeeding, leaving the state unchanged. -/
theorem acs_consumes_exchange_once
    (A : ParsedResponse → Option String) (V : String → String) (D : String)
    (oq0 session0 : Dict) (sid cameFrom : String) (raw : RawResponse)
    (rs : Option String) (u : String)
    (hsig : raw.signatureOk = true) (hte : raw.tooEarly = false)
    (hlt : raw.lifetimeExceeded = false) (hmk : raw.missingKey = false)
    (hst : raw.status = SamlStatus.success) (hpn : raw.parsesToNone = false)
    (hirt : raw.inResponseTo = sid)
    (hauth : A ⟨sid, some cameFrom, raw.nameId⟩ = some u) :
    (∃ url, (acsPost A V D ⟨some raw, rs⟩ ⟨dictSet oq0 sid cameFrom, session0⟩).1 =
      AcsOutcome.redirectWithToken url) ∧
    dictGet (acsPost A V D ⟨some raw, rs⟩ ⟨dictSet oq0 sid cameFrom, session0⟩).2.oq sid = none ∧
    acsPost A V D ⟨some raw, rs⟩
        (acsPost A V D ⟨some raw, rs⟩ ⟨dictSet oq0 sid cameFrom, session0⟩).2 =
      (AcsOutcome.acsFailure AcsError.unsolicitedResponse,
        (acsPost A V D ⟨some raw, rs⟩ ⟨dictSet oq0 sid cameFrom, session0⟩).2) := by
  have hparse1 : parseAuthnRequestResponse raw (dictSet oq0 sid cameFrom) =
      Except.ok (some ⟨sid, some cameFrom, raw.nameId⟩) := by
    simp [parseAuthnRequestResponse, hsig, hte, hlt, hmk, hst, hpn, hirt,
      dictGet_dictSet_self]
  have hstep : acsPost A V D ⟨some raw, rs⟩ ⟨dictSet oq0 sid cameFrom, session0⟩ =
      (AcsOutcome.redirectWithToken (V (buildRelayState D rs)),
        ⟨dictDelete (dictSet oq0 sid cameFrom) sid, setSubjectId session0 raw.nameId⟩) := by
    simp [acsPost, hparse1, hauth]
  have hparse2 : parseAuthnRequestResponse raw (dictDelete (dictSet oq0 sid cameFrom) sid) =
      Except.error AcsError.unsolicitedResponse := by
    simp [parseAuthnRequestResponse, hsig, hte, hlt, hmk, hirt, dictGet_dictDelete_self]
  refine ⟨⟨V (buildRelayState D rs), by rw [hstep]⟩, ?_, ?_⟩
  · rw [hstep]
    exact dictGet_dictDelete_self _ _
  · rw [hstep]
    simp [acsPost, hparse2]

/-- Witness for C1 at a concrete exchange: after the entry for `id1` has been
consumed, the consumed cache no longer resolves `id1`. -/
theorem acs_consumes_exchange_once_w :
    dictGet (acsPost (fun _ => some "user") (fun s => s) "/"
      ⟨some ⟨true, false, false, false, "id1", SamlStatus.success, emptyNameID, false⟩, none⟩
      ⟨dictSet [] "id1" "/dashboard", []⟩).2.oq "id1" = none :=
  (acs_consumes_exchange_once (fun _ => some "user") (fun s => s) "/" [] [] "id1" "/dashboard"
    ⟨true, false, false, false, "id1", SamlStatus.success, emptyNameID, false⟩ none "user"
    rfl rfl rfl rfl rfl rfl rfl rfl).2.1

/-- C2: the `logout` view terminates the local authenticated session exactly
once, in every execution — whatever `global_logout` does (raises
`LogoutError`, returns zero, one, or many entities), the user ends up logged
out locally and the termination count grows by exactly one. -/
theorem logout_local_exactly_once (remote : GlobalLogoutBehavior) (st : ViewState)
    (hauth : st.authenticated = true) :
    (logoutView remote st).2.authenticated = false ∧
    (logoutView remote st).2.terminations = st.terminations + 1 := by
  have h1 : doLocalLogout st = authLogout st := by simp [doLocalLogout, hauth]
  cases remote with
  | raisesLogoutError =>
    simp [logoutView, h1, doLocalLogout, authLogout, hauth]
  | returns result =>
    match result with
    | [] => simp [logoutView, h1, authLogout, hauth]
    | (e, LogoutInfo.httpPair b info) :: rest =>
      cases b <;> simp [logoutView, h1, authLogout, hauth]
    | (e, LogoutInfo.soapDone resp) :: rest =>
      match resp with
      | none => simp [logoutView, h1, finishLogout, authLogout, hauth]
      | some r =>
        by_cases hr : r.statusOk <;>
          simp [logoutView, h1, finishLogout, authLogout, hauth, hr]

/-- Witness for C2: with an authenticated session and a `LogoutError` from
the remote call, local logout still happens exactly once. -/
theorem logout_local_exactly_once_w :
    (logoutView GlobalLogoutBehavior.raisesLogoutError ⟨true, 0, []⟩).2.authenticated = false ∧
    (logoutView GlobalLogoutBehavior.raisesLogoutError ⟨true, 0, []⟩).2.terminations = 1 := by
  simpa using logout_local_exactly_once GlobalLogoutBehavior.raisesLogoutError ⟨true, 0, []⟩ rfl

/-- Counterexample to C3: with sessions at two entities, the `logout` view
returns the logout continuation for the first entity only; the second entity
is not notified by the returned response (the code logs "I will logout just
from the first one" and returns inside the first loop iteration). -/
theorem logout_multi_idp_first_only :
    (logoutView (GlobalLogoutBehavior.returns
      [("idp1", LogoutInfo.httpPair Binding.httpRedirect ⟨none, none, [], "https://idp1/slo"⟩),
       ("idp2", LogoutInfo.httpPair Binding.httpRedirect ⟨none, none, [], "https://idp2/slo"⟩)])
      ⟨true, 0, []⟩).1 = LogoutInitOutcome.continueWithRedirect "idp1" "https://idp1/slo" ∧
    notifiedEntity (logoutView (GlobalLogoutBehavior.returns
      [("idp1", LogoutInfo.httpPair Binding.httpRedirect ⟨none, none, [], "https://idp1/slo"⟩),
       ("idp2", LogoutInfo.httpPair Binding.httpRedirect ⟨none, none, [], "https://idp2/slo"⟩)])
      ⟨true, 0, []⟩).1 ≠ some "idp2" := by
  constructor
  · rfl
  · decide

/-- C3 as amended: when `global_logout` returns results for one or more
entities, the response delivered by the `logout` view continues the logout
with at most the first entity of the result; no other entity is notified. -/
theorem logout_first_entity_only (e : String) (i : LogoutInfo)
    (rest : List (String × LogoutInfo)) (st : ViewState) (e2 : String)
    (h : notifiedEntity
      (logoutView (GlobalLogoutBehavior.returns ((e, i) :: rest)) st).1 = some e2) :
    e2 = e := by
  cases i with
  | httpPair b info =>
    cases b with
    | httpRedirect =>
      simp [logoutView, notifiedEntity] at h
      exact h.symm
    | httpPost =>
      simp [logoutView, notifiedEntity] at h
      exact h.symm
    | soap => simp [logoutView, notifiedEntity] at h
  | soapDone resp =>
    match resp with
    | none => simp [logoutView, notifiedEntity, finishLogout] at h
    | some r =>
      by_cases hr : r.statusOk <;>
        simp [logoutView, notifiedEntity, finishLogout, hr] at h

/-- Witness for the amended C3 at a concrete two-entity result. -/
theorem logout_first_entity_only_w : ("idp1" : String) = "idp1" :=
  logout_first_entity_only "idp1"
    (LogoutInfo.httpPair Binding.httpRedirect ⟨none, none, [], "https://idp1/slo"⟩)
    [("idp2", LogoutInfo.httpPair Binding.httpRedirect ⟨none, none, [], "https://idp2/slo"⟩)]
    ⟨true, 0, []⟩ "idp1" rfl

/-- Counterexample to C4: an execution that fails with `PermissionDenied`
(the authentication backend returns no user) still deletes the matching
exchange — deletion is not confined to the success path. -/
theorem acs_auth_failure_deletes_entry :
    acsPost (fun _ => none) (fun s => s) "/"
      ⟨some ⟨true, false, false, false, "id1", SamlStatus.success, emptyNameID, false⟩, none⟩
      ⟨[("id1", "/dashboard")], []⟩ =
      (AcsOutcome.permissionDeniedNoUser, ⟨[], []⟩) ∧
    ([("id1", "/dashboard")] : Dict) ≠ ([] : Dict) := by
  constructor
  · rfl
  · decide

/-- C4 as amended: every parse-stage failure of
`AssertionConsumerServiceView.post` (signature, time window, status,
unsolicited response, missing key, or a `None` parse result) leaves the
outstanding-queries cache unchanged; the deletion of the matching exchange
happens before local user authentication, so the `PermissionDenied` error
path runs with the entry already deleted. -/
theorem acs_error_paths_cache (A : ParsedResponse → Option String)
    (V : String → String) (D : String) (req : AcsRequestData) (st : AcsState) :
    (∀ raw e, req.samlResponse = some raw →
      parseAuthnRequestResponse raw st.oq = Except.error e →
      acsPost A V D req st = (AcsOutcome.acsFailure e, st)) ∧
    (∀ raw, req.samlResponse = some raw →
      parseAuthnRequestResponse raw st.oq = Except.ok none →
      acsPost A V D req st = (AcsOutcome.acsFailureUnknown, st)) ∧
    (∀ raw p, req.samlResponse = some raw →
      parseAuthnRequestResponse raw st.oq = Except.ok (some p) →
      A p = none →
      acsPost A V D req st = (AcsOutcome.permissionDeniedNoUser,
        { st with oq := dictDelete st.oq p.sessionId })) := by
  refine ⟨?_, ?_, ?_⟩
  · intro raw e hr hp
    simp [acsPost, hr, hp]
  · intro raw hr hp
    simp [acsPost, hr, hp]
  · intro raw p hr hp ha
    simp [acsPost, hr, hp, ha]

/-- Witness for the amended C4: a signature failure leaves the state intact. -/
theorem acs_error_paths_cache_w :
    acsPost (fun _ => none) (fun s => s) "/"
      ⟨some ⟨false, false, false, false, "id1", SamlStatus.success, emptyNameID, false⟩, none⟩
      ⟨[], []⟩ = (AcsOutcome.acsFailure AcsError.signatureError, ⟨[], []⟩) :=
  (acs_error_paths_cache (fun _ => none) (fun s => s) "/"
    ⟨some ⟨false, false, false, false, "id1", SamlStatus.success, emptyNameID, false⟩, none⟩
    ⟨[], []⟩).1
    ⟨false, false, false, false, "id1", SamlStatus.success, emptyNameID, false⟩
    AcsError.signatureError rfl rfl

/-- C5: the login binding choice tries HTTP-POST first iff `sign_requests`,
else HTTP-Redirect; an unsupported first choice falls back to the other of
the two; if both are unsupported the result is `UnsupportedBinding`, and no
third binding is ever tried. -/
theorem login_binding_selection (signRequests : Bool) (supported : List Binding)
    (b1 b2 : Binding)
    (hb1 : b1 = if signRequests then Binding.httpPost else Binding.httpRedirect)
    (hb2 : b2 = if b1 = Binding.httpPost then Binding.httpRedirect else Binding.httpPost) :
    (b1 ∈ supported → chooseBinding signRequests supported = Except.ok b1) ∧
    (b1 ∉ supported → b2 ∈ supported → chooseBinding signRequests supported = Except.ok b2) ∧
    (b1 ∉ supported → b2 ∉ supported →
      chooseBinding signRequests supported = Except.error BindingErr.unsupportedBinding) := by
  subst hb1
  subst hb2
  cases signRequests with
  | false =>
    refine ⟨fun h => ?_, fun h1 h2 => ?_, fun h1 h2 => ?_⟩
    · simp at h
      simp [chooseBinding, h]
    · simp at h1 h2
      simp [chooseBinding, h1, h2]
    · simp at h1 h2
      simp [chooseBinding, h1, h2]
  | true =>
    refine ⟨fun h => ?_, fun h1 h2 => ?_, fun h1 h2 => ?_⟩
    · simp at h
      simp [chooseBinding, h]
    · simp at h1 h2
      simp [chooseBinding, h1, h2]
    · simp at h1 h2
      simp [chooseBinding, h1, h2]

/-- Witness for C5: signed requests with an IdP supporting only HTTP-POST. -/
theorem login_binding_selection_w :
    chooseBinding true [Binding.httpPost] = Except.ok Binding.httpPost :=
  (login_binding_selection true [Binding.httpPost] Binding.httpPost Binding.httpRedirect
    rfl rfl).1 (by decide)

/-- Counterexample to C6: a POST to the logout service with neither
`SAMLResponse` nor `SAMLRequest` makes `do_logout_service` raise `Http404`,
but `logout_service_post` catches and logs it and returns `None` — the error
is discarded, not returned to the caller. -/
theorem logout_service_post_swallows_http404 :
    doLogoutService (fun _ => none) (fun _ _ _ _ => ⟨none, none, [], ""⟩)
      Binding.httpPost ⟨none, none, none⟩ ⟨true, 0, []⟩ =
      (Except.error ViewErr.http404, ⟨true, 0, []⟩) ∧
    (logoutServicePost (fun _ => none) (fun _ _ _ _ => ⟨none, none, [], ""⟩)
      ⟨none, none, none⟩ ⟨true, 0, []⟩).1 = none :=
  ⟨rfl, rfl⟩

/-- C6 as amended: every error `do_logout_service` raises on the POST logout
endpoint is caught by `logout_service_post`, which returns no response at all
(`None`) instead of an error result; the session state is whatever
`do_logout_service` left behind. -/
theorem logout_service_post_discards_errors
    (parse : String → Option LogoutRespModel)
    (handle : String → NameID → Binding → String → HttpInfo)
    (data : LogoutServiceData) (st : ViewState) (e : ViewErr)
    (h : (doLogoutService parse handle Binding.httpPost data st).1 = Except.error e) :
    (logoutServicePost parse handle data st).1 = none ∧
    (logoutServicePost parse handle data st).2 =
      (doLogoutService parse handle Binding.httpPost data st).2 := by
  rcases hds : doLogoutService parse handle Binding.httpPost data st with ⟨r, st'⟩
  rw [hds] at h
  simp only at h
  subst h
  simp [logoutServicePost, hds]

/-- Witness for the amended C6 at the concrete `Http404` input. -/
theorem logout_service_post_discards_errors_w :
    (logoutServicePost (fun _ => none) (fun _ _ _ _ => ⟨none, none, [], ""⟩)
      ⟨none, none, none⟩ ⟨true, 0, []⟩).1 = none :=
  (logout_service_post_discards_errors (fun _ => none) (fun _ _ _ _ => ⟨none, none, [], ""⟩)
    ⟨none, none, none⟩ ⟨true, 0, []⟩ ViewErr.http404 rfl).1

/-- C7: with more than one configured IdP and no `idp` request parameter, the
`login` view renders the discovery (wayf) page listing the available IdPs; it
does not redirect to an IdP and records no outstanding exchange. -/
theorem login_discovery_when_multiple_idps (settings : LoginSettings)
    (validateReferralUrl : String → String) (conf : SpConfig) (sessionId : String)
    (req : LoginRequestData) (samlSession : Dict)
    (hauth : req.userIsAuthenticated = false)
    (hidp : req.idpParam = none)
    (hmany : 1 < conf.idps.length) :
    loginView settings validateReferralUrl conf sessionId req samlSession =
      (LoginOutcome.wayf conf.idps (loginCameFrom settings validateReferralUrl req),
        samlSession) := by
  simp [loginView, hauth, hidp, hmany]

/-- Witness for C7 with two configured IdPs. -/
theorem login_discovery_when_multiple_idps_w :
    loginView ⟨"/", true⟩ (fun s => s)
      ⟨false, false, false, [("idpA", "IdP A"), ("idpB", "IdP B")], fun _ => []⟩
      "sid" ⟨none, none, false⟩ [] =
      (LoginOutcome.wayf [("idpA", "IdP A"), ("idpB", "IdP B")] "/", []) :=
  login_discovery_when_multiple_idps ⟨"/", true⟩ (fun s => s)
    ⟨false, false, false, [("idpA", "IdP A"), ("idpB", "IdP B")], fun _ => []⟩
    "sid" ⟨none, none, false⟩ [] rfl rfl (by decide)

/-- C8: on an IdP-initiated `SAMLRequest`, `do_logout_service` with a locally
unknown subject still performs local logout and returns the 403 error page
(no LogoutResponse is built); with a known subject it performs local logout
and returns the response built by `handle_logout_request` (an HTML body or a
redirect to the IdP). -/
theorem logout_service_idp_request (parse : String → Option LogoutRespModel)
    (handle : String → NameID → Binding → String → HttpInfo)
    (binding : Binding) (xml : String) (rs : Option String) (st : ViewState) :
    (getSubjectId st.session = none →
      doLogoutService parse handle binding ⟨none, some xml, rs⟩ st =
        (Except.ok LogoutServiceOutcome.unknownSubjectErrorPage, doLocalLogout st)) ∧
    (∀ sid, getSubjectId st.session = some sid →
      (doLogoutService parse handle binding ⟨none, some xml, rs⟩ st).2 = doLocalLogout st ∧
      ((doLogoutService parse handle binding ⟨none, some xml, rs⟩ st).1 =
        Except.ok (LogoutServiceOutcome.idpLogoutResponseBody
          ((handle xml sid binding (rs.getD "")).data.getD "")) ∨
       (doLogoutService parse handle binding ⟨none, some xml, rs⟩ st).1 =
        Except.ok (LogoutServiceOutcome.idpLogoutRedirect
          (handle xml sid binding (rs.getD "")).location))) := by
  constructor
  · intro h
    simp [doLogoutService, h]
  · intro sid h
    by_cases hc : (handle xml sid binding (rs.getD "")).method.getD "GET" = "POST" ∧
        (handle xml sid binding (rs.getD "")).data.isSome ∧
        ("Content-type", "text/html") ∈ (handle xml sid binding (rs.getD "")).headers
    · refine ⟨by simp [doLogoutService, h, hc], Or.inl ?_⟩
      simp [doLogoutService, h, hc]
    · refine ⟨by simp [doLogoutService, h, hc], Or.inr ?_⟩
      simp [doLogoutService, h, hc]

/-- Witness for C8: unknown local subject, local logout still performed. -/
theorem logout_service_idp_request_w :
    doLogoutService (fun _ => none) (fun _ _ _ _ => ⟨none, none, [], ""⟩)
      Binding.httpPost ⟨none, some "req-xml", none⟩ ⟨true, 0, []⟩ =
      (Except.ok LogoutServiceOutcome.unknownSubjectErrorPage,
        doLocalLogout ⟨true, 0, []⟩) :=
  (logout_service_idp_request (fun _ => none) (fun _ _ _ _ => ⟨none, none, [], ""⟩)
    Binding.httpPost "req-xml" none ⟨true, 0, []⟩).1 rfl

/-- C9: a logout-service payload with neither `SAMLResponse` nor
`SAMLRequest` raises `Http404` and leaves the state completely untouched (no
local logout, no session change, no entity contacted). -/
theorem logout_service_no_params (parse : String → Option LogoutRespModel)
    (handle : String → NameID → Binding → String → HttpInfo)
    (binding : Binding) (rs : Option String) (st : ViewState) :
    doLogoutService parse handle binding ⟨none, none, rs⟩ st =
      (Except.error ViewErr.http404, st) := rfl

/-- Counterexample to C10: the round-trip does not hold for every name id.
For a name id with an empty-string field, `code` drops the field (Python
`if val:` is false for `""`), so `_get_subject_id` right after
`_set_subject_id` returns the name id with that field unset (`None`) — not a
name id equal to the stored one. -/
theorem subject_id_empty_field_lost :
    getSubjectId (setSubjectId [] ⟨none, none, none, none, some ""⟩) = some emptyNameID ∧
    some emptyNameID ≠ some (⟨none, none, none, none, some ""⟩ : NameID) := by
  constructor
  · rfl
  · decide

/-- C10 as amended: the subject-id session storage round-trips for every name
id whose set fields are non-empty (the encoding drops falsy fields, so an
empty-string field comes back as `None`): `_get_subject_id` right after
`_set_subject_id` returns the stored name id, and on a session that never
stored a subject id it returns `None` instead of raising. -/
theorem subject_id_roundtrip (session : Dict) (n : NameID) (hwf : n.wf)
    (session2 : Dict) (h2 : dictGet session2 "_saml2_subject_id" = none) :
    getSubjectId (setSubjectId session n) = some n ∧ getSubjectId session2 = none := by
  constructor
  · rw [getSubjectId, setSubjectId, dictGet_dictSet_self]
    simp [decode_code n hwf]
  · rw [getSubjectId, h2]
    rfl

/-- Witness for C10 at a concrete name id and sessions. -/
theorem subject_id_roundtrip_w :
    getSubjectId (setSubjectId [] ⟨some "NQ", none, some "fmt", none, some "user1"⟩) =
      some ⟨some "NQ", none, some "fmt", none, some "user1"⟩ ∧
    getSubjectId [("other", "value")] = none :=
  subject_id_roundtrip [] ⟨some "NQ", none, some "fmt", none, some "user1"⟩
    ⟨by decide, by decide, by decide, by decide, by decide⟩
    [("other", "value")] rfl

end Djangosaml2
